import Mathlib

/-!
Verification of the Cloud Functions tips handlers (`functions/tips/index.js`)
against their natural-language specification.

The JavaScript module is shallowly embedded: each exported handler becomes a
Lean function over explicit state/behavior types.  Module-level (instance
scoped) state is modelled as an explicit environment record threaded through
invocations; the asynchronous HTTP transport is modelled as its observable
behavior (a list of body chunks followed by end-of-stream, or an error);
callback invocations are recorded as the list of argument values passed.
-/

namespace Tips

/-- Embeds `lightComputation`: `[1..9].reduce((t, x) => t + x)`.
JavaScript `reduce` without an initial accumulator starts from the first
element and folds over the rest. -/
def lightComputation : Nat :=
  let numbers : List Nat := [1, 2, 3, 4, 5, 6, 7, 8, 9]
  match numbers with
  | [] => 0
  | h :: t => t.foldl (fun t x => t + x) h

/-- Embeds `heavyComputation`: `[1..9].reduce((t, x) => t * x)`. -/
def heavyComputation : Nat :=
  let numbers : List Nat := [1, 2, 3, 4, 5, 6, 7, 8, 9]
  match numbers with
  | [] => 0
  | h :: t => t.foldl (fun t x => t * x) h

/-- Embeds `const functionSpecificComputation = heavyComputation`. -/
def functionSpecificComputation : Nat := heavyComputation

/-- Embeds `const fileWideComputation = lightComputation`. -/
def fileWideComputation : Nat := lightComputation

/-! ## Scope demo (`scopeDemo`, module constant `instanceVar`) -/

/-- Instance-scoped state of the module for `scopeDemo`: the value of the
module-level `instanceVar`, plus instrumentation counting how many times
`heavyComputation` has been executed in this environment. -/
structure ScopeEnv where
  instanceVar : Nat
  heavyRuns : Nat
  deriving DecidableEq, Repr

/-- Environment cold start: `const instanceVar = heavyComputation();` runs
once when the module is loaded, so the run counter starts at 1. -/
def scopeColdStart : ScopeEnv :=
  { instanceVar := heavyComputation, heavyRuns := 1 }

/-- Embeds the `scopeDemo` handler.  Each invocation computes
`functionVar = lightComputation()` afresh and responds with
`Per instance: ${instanceVar}, per function: ${functionVar}`; the
instance-scoped state is read but never written. -/
def scopeDemo (env : ScopeEnv) : ScopeEnv × String :=
  let functionVar := lightComputation
  (env, "Per instance: " ++ toString env.instanceVar ++
        ", per function: " ++ toString functionVar)

/-- The environment after `n` invocations of `scopeDemo` since cold start. -/
def scopeEnvAfter : Nat → ScopeEnv
  | 0 => scopeColdStart
  | n + 1 => (scopeDemo (scopeEnvAfter n)).1

/-! ## Lazy globals (`lazyGlobals`, module state `nonLazyGlobal`, `lazyGlobal`) -/

/-- Instance-scoped state of the module for `lazyGlobals`: the always
initialized `nonLazyGlobal`, the lazily initialized `lazyGlobal`
(`none` models the JavaScript `undefined`), plus instrumentation counting
executions of `functionSpecificComputation` in this environment. -/
structure LazyEnv where
  nonLazyGlobal : Nat
  lazyGlobal : Option Nat
  specificRuns : Nat
  deriving DecidableEq, Repr

/-- Cold start: `const nonLazyGlobal = fileWideComputation();` runs, while
`let lazyGlobal;` leaves `lazyGlobal` undefined. -/
def lazyColdStart : LazyEnv :=
  { nonLazyGlobal := fileWideComputation, lazyGlobal := none, specificRuns := 0 }

/-- JavaScript truthiness of the numbers involved: a number is falsy
exactly when it is zero (the embedded values are naturals, NaN
does not arise). -/
def truthy (n : Nat) : Bool := n ≠ 0

/-- Embeds the `lazyGlobals` handler:
`lazyGlobal = lazyGlobal || functionSpecificComputation();` recomputes
exactly when the current value is undefined or falsy, then the handler
responds with `Lazy global: ${lazyGlobal}, non-lazy global: ${nonLazyGlobal}`. -/
def lazyGlobals (env : LazyEnv) : LazyEnv × String :=
  let vr : Nat × Nat :=
    match env.lazyGlobal with
    | some g =>
      if truthy g then (g, env.specificRuns)
      else (functionSpecificComputation, env.specificRuns + 1)
    | none => (functionSpecificComputation, env.specificRuns + 1)
  let env' : LazyEnv :=
    { env with lazyGlobal := some vr.1, specificRuns := vr.2 }
  (env', "Lazy global: " ++ toString vr.1 ++
         ", non-lazy global: " ++ toString env.nonLazyGlobal)

/-- The environment after `n` invocations of `lazyGlobals` since cold start. -/
def lazyEnvAfter : Nat → LazyEnv
  | 0 => lazyColdStart
  | n + 1 => (lazyGlobals (lazyEnvAfter n)).1

/-! ## HTTP agent handlers (`ephemeralAgent`, `cachedAgent`) -/

/-- Observable behavior of the outbound HTTP transport for one request:
either a sequence of body chunks delivered via `data` events followed by
the `end` event, or an `error` event carrying a message. -/
inductive Transport where
  | success (chunks : List String)
  | failure (msg : String)
  deriving DecidableEq, Repr

/-- The response written by an HTTP handler: status code and body text. -/
structure HttpResponse where
  status : Nat
  body : String
  deriving DecidableEq, Repr

/-- The options object passed to `http.request`.  `usesModuleAgent` records
whether the request names the module-level keep-alive `agent` (the
instance-scoped connection resource) in its options. -/
structure RequestOptions where
  host : String
  port : Nat
  path : String
  meth : String
  usesModuleAgent : Bool
  deriving DecidableEq, Repr

/-- The options `ephemeralAgent` passes to `http.request`: placeholder host
`<HOST>` and path `<PATH>`, no agent option (default, per-invocation agent). -/
def ephemeralOptions : RequestOptions :=
  { host := "<HOST>", port := 80, path := "<PATH>", meth := "GET",
    usesModuleAgent := false }

/-- The options `cachedAgent` passes to `http.request`: empty host and path,
and `agent: agent`, the module-level keep-alive agent. -/
def cachedOptions : RequestOptions :=
  { host := "", port := 80, path := "", meth := "GET",
    usesModuleAgent := true }

/-- Embeds the `ephemeralAgent` handler.  It issues one request with
`ephemeralOptions`; on the success path it accumulates `rawData += chunk`
for each `data` event and on `end` sends status 200 with
`Data: ${rawData}`; on an `error` event it sends status 500 with
`Error: ${e.message}`.  The result pairs the single request issued with
the response written. -/
def ephemeralAgent (t : Transport) : RequestOptions × HttpResponse :=
  match t with
  | Transport.success chunks =>
    let rawData := chunks.foldl (fun rawData chunk => rawData ++ chunk) ""
    (ephemeralOptions, { status := 200, body := "Data: " ++ rawData })
  | Transport.failure e =>
    (ephemeralOptions, { status := 500, body := "Error: " ++ e })

/-- Embeds the `cachedAgent` handler.  It issues one request with
`cachedOptions`; the response handling is transcribed from its own body:
accumulate chunks, on `end` send status 200 with `Data: ${rawData}`, on
`error` send status 500 with `Error: ${e.message}`. -/
def cachedAgent (t : Transport) : RequestOptions × HttpResponse :=
  match t with
  | Transport.success chunks =>
    let rawData := chunks.foldl (fun rawData chunk => rawData ++ chunk) ""
    (cachedOptions, { status := 200, body := "Data: " ++ rawData })
  | Transport.failure e =>
    (cachedOptions, { status := 500, body := "Error: " ++ e })

/-! ## Background function with age gate (`avoidInfiniteRetries`) -/

/-- An inbound event record.  `timestamp` is the instant the event was
issued; `none` models a timestamp string that `Date.parse` cannot parse
(so that `Date.now() - Date.parse(...)` is NaN). -/
structure CloudEvent where
  timestamp : Option Int
  deriving DecidableEq, Repr

/-- The observable outcome of one `avoidInfiniteRetries` invocation:
whether the main work (the `Processing event ...` branch) ran, and the
list of callback invocations, each recorded as the error argument passed
(`none` = called with no argument). -/
structure RetryResult where
  workDone : Bool
  callbackArgs : List (Option String)
  deriving DecidableEq, Repr

/-- `eventAge > eventMaxAge` as JavaScript evaluates it: when the age is
NaN (timestamp unparseable, modelled as `none`) every comparison is
false. -/
def ageExceeds (age : Option Int) (maxAge : Int) : Bool :=
  match age with
  | none => false
  | some a => a > maxAge

/-- Embeds the `avoidInfiniteRetries` handler at current time `now`:
compute `eventAge = now - event.timestamp`; if it exceeds
`eventMaxAge = 10000` log the drop, invoke `callback()` and return;
otherwise log the processing message (the sample's stand-in for the main
work) — the source invokes no callback on this path. -/
def avoidInfiniteRetries (now : Int) (event : CloudEvent) : RetryResult :=
  let eventAge : Option Int := event.timestamp.map (fun t => now - t)
  let eventMaxAge : Int := 10000
  if ageExceeds eventAge eventMaxAge then
    { workDone := false, callbackArgs := [none] }
  else
    { workDone := true, callbackArgs := [] }

/-! ## Retry toggling (`retryPromise`, `retryCallback`) -/

/-- The outcome of a promise-surface background function: it may resolve
(success, no redelivery), return a rejected promise, or throw
synchronously (both failures, requesting redelivery). -/
inductive PromiseOutcome where
  | resolved
  | rejected (msg : String)
  | thrown (msg : String)
  deriving DecidableEq, Repr

/-- `retryPromise`'s internal flag: `const tryAgain = false;`. -/
def retryPromiseTryAgain : Bool := false

/-- Embeds `retryPromise`: `if (tryAgain) throw new Error('Retrying...')
else return Promise.reject(new Error('Not retrying...'))`. -/
def retryPromise : PromiseOutcome :=
  if retryPromiseTryAgain then PromiseOutcome.thrown "Retrying..."
  else PromiseOutcome.rejected "Not retrying..."

/-- A promise outcome signals success (no retry) exactly when it neither
throws nor rejects. -/
def promiseSignalsSuccess (o : PromiseOutcome) : Bool :=
  match o with
  | PromiseOutcome.resolved => true
  | PromiseOutcome.rejected _ => false
  | PromiseOutcome.thrown _ => false

/-- `retryCallback`'s internal flag: `const tryAgain = false;`. -/
def retryCallbackTryAgain : Bool := false

/-- Embeds `retryCallback`: with `err = new Error('Error!')`, call
`callback(err)` when `tryAgain` holds and `callback()` otherwise.  The
result is the error argument passed to the callback (`none` = no
argument, signalling success). -/
def retryCallback : Option String :=
  let err := "Error!"
  if retryCallbackTryAgain then some err else none

/-- The callback surface signals success exactly when the callback is
invoked with no error argument. -/
def callbackSignalsSuccess (r : Option String) : Bool := r.isNone

end Tips

namespace Tips

/-! ## Helper lemmas -/

/-- `scopeDemo` never writes the instance-scoped state, so the environment
stays at its cold-start value across any number of invocations. -/
theorem scopeEnvAfter_fixed (n : Nat) : scopeEnvAfter n = scopeColdStart := by
  induction n with
  | zero => rfl
  | succ k ih => simp only [scopeEnvAfter, scopeDemo, ih]

/-- After the first invocation of `lazyGlobals`, the environment is the
stable state: `lazyGlobal` holds the cached computation and the
initializer has run exactly once. -/
theorem lazyEnvAfter_fixed (n : Nat) :
    lazyEnvAfter (n + 1) =
      { nonLazyGlobal := fileWideComputation,
        lazyGlobal := some functionSpecificComputation,
        specificRuns := 1 } := by
  induction n with
  | zero => decide
  | succ k ih =>
    simp only [lazyEnvAfter] at ih ⊢
    rw [ih]
    decide

/-! ## Claim theorems -/

/-- Claim C1: with the internal flag false, both retry surfaces were
specified to signal success and to agree; the code instead has
`retryPromise` return a rejected promise (a failure, requesting retry)
while `retryCallback` invokes its callback with no error (success), so
the two surfaces disagree.  This theorem evaluates the code at the
failing input (the hard-coded flag value false). -/
theorem retry_surfaces_disagree :
    retryPromise = PromiseOutcome.rejected "Not retrying..." ∧
    retryCallback = none ∧
    promiseSignalsSuccess retryPromise = false ∧
    callbackSignalsSuccess retryCallback = true := by
  decide

/-- Claim C2: the spec says a fresh event (age at most 10000) is processed
and then the callback is invoked to signal success; the code performs the
work but invokes no callback on that path.  This theorem evaluates the
code at the failing input: now = 15000, timestamp = 10000 (age 5000). -/
theorem fresh_event_work_without_callback :
    avoidInfiniteRetries 15000 { timestamp := some 10000 } =
      { workDone := true, callbackArgs := [] } := by
  decide

/-- Claim C3: for every event whose age strictly exceeds 10000, the handler
performs none of its main work and invokes the callback exactly once with
no error argument. -/
theorem stale_event_dropped (now t : Int) (e : CloudEvent)
    (ht : e.timestamp = some t) (h : now - t > 10000) :
    avoidInfiniteRetries now e =
      { workDone := false, callbackArgs := [none] } := by
  have hx : ageExceeds (e.timestamp.map (fun u => now - u)) 10000 = true := by
    rw [ht]
    simpa [ageExceeds] using h
  simp [avoidInfiniteRetries, hx]

/-- Witness for C3 at now = 20000, timestamp = 0 (age 20000 > 10000). -/
theorem stale_event_dropped_witness :
    avoidInfiniteRetries 20000 { timestamp := some 0 } =
      { workDone := false, callbackArgs := [none] } :=
  stale_event_dropped 20000 0 { timestamp := some 0 } rfl (by decide)

/-- Claim C4: both agent handlers, given transport chunks ab and cd then
end-of-stream, buffer everything and respond with status 200 and body
Data: abcd. -/
theorem agents_buffer_chunks :
    (ephemeralAgent (Transport.success ["ab", "cd"])).2 =
      { status := 200, body := "Data: abcd" } ∧
    (cachedAgent (Transport.success ["ab", "cd"])).2 =
      { status := 200, body := "Data: abcd" } := by
  decide

/-- Claim C5: both agent handlers, on a transport error with message boom,
respond with status 500 and body Error: boom, and each issues exactly the
one original request (the single options record in the result), so no
retry is attempted. -/
theorem agents_error_no_retry :
    ephemeralAgent (Transport.failure "boom") =
      (ephemeralOptions, { status := 500, body := "Error: boom" }) ∧
    cachedAgent (Transport.failure "boom") =
      (cachedOptions, { status := 500, body := "Error: boom" }) := by
  decide

/-- Counterexample to claim C6: the two handlers do not differ only in the
agent option — the request options also differ in the placeholder host
(`<HOST>` vs the empty string) and path, so the claim as stated is
false. -/
theorem agents_differ_beyond_agent :
    ¬ ((∀ t, (ephemeralAgent t).2 = (cachedAgent t).2) ∧
       ephemeralOptions.host = cachedOptions.host ∧
       ephemeralOptions.path = cachedOptions.path) := by
  intro hc
  exact absurd hc.2.1 (by decide)

/-- Claim C6 (amended): for every transport behavior the two handlers
produce the same response status and body; `cachedAgent` names the
module-level keep-alive agent in its request options while
`ephemeralAgent` does not, and the placeholder host and path strings also
differ between the two. -/
theorem agents_response_equivalent (t : Transport) :
    (ephemeralAgent t).2 = (cachedAgent t).2 ∧
    ephemeralOptions.usesModuleAgent = false ∧
    cachedOptions.usesModuleAgent = true ∧
    ephemeralOptions.host ≠ cachedOptions.host := by
  refine ⟨?_, by decide, by decide, by decide⟩
  cases t <;> rfl

/-- Claim C7: the instance-scoped `instanceVar` is computed exactly once at
cold start (the run counter is 1 after any number of invocations), every
invocation of `scopeDemo` reads the identical value, and any two
invocations produce the same response. -/
theorem instance_var_computed_once (n m : Nat) :
    (scopeEnvAfter n).heavyRuns = 1 ∧
    (scopeEnvAfter n).instanceVar = (scopeEnvAfter m).instanceVar ∧
    (scopeDemo (scopeEnvAfter n)).2 = (scopeDemo (scopeEnvAfter m)).2 := by
  rw [scopeEnvAfter_fixed n, scopeEnvAfter_fixed m]
  exact ⟨rfl, rfl, rfl⟩

/-- Claim C8: `lazyGlobal` is uninitialized before the first invocation of
`lazyGlobals`; the first invocation computes and stores it; after any
positive number of invocations the cached value is unchanged, the
initializer has run exactly once, and every subsequent invocation returns
the same response as the first. -/
theorem lazy_global_initialized_once :
    lazyColdStart.lazyGlobal = none ∧
    (lazyEnvAfter 1).lazyGlobal = some functionSpecificComputation ∧
    (lazyEnvAfter 1).specificRuns = 1 ∧
    ∀ n, 1 ≤ n →
      (lazyEnvAfter n).lazyGlobal = some functionSpecificComputation ∧
      (lazyEnvAfter n).specificRuns = 1 ∧
      (lazyGlobals (lazyEnvAfter n)).2 = (lazyGlobals (lazyEnvAfter 1)).2 := by
  refine ⟨rfl, by decide, by decide, ?_⟩
  intro n hn
  obtain ⟨k, rfl⟩ : ∃ k, n = k + 1 :=
    ⟨n - 1, (Nat.succ_pred_eq_of_pos hn).symm⟩
  rw [lazyEnvAfter_fixed k]
  refine ⟨rfl, rfl, ?_⟩
  rw [show (1 : Nat) = 0 + 1 from rfl, lazyEnvAfter_fixed 0]

/-- Witness for C8 at n = 3 invocations. -/
theorem lazy_global_initialized_once_witness :
    (lazyEnvAfter 3).lazyGlobal = some functionSpecificComputation ∧
    (lazyEnvAfter 3).specificRuns = 1 :=
  ⟨(lazy_global_initialized_once.2.2.2 3 (by decide)).1,
   (lazy_global_initialized_once.2.2.2 3 (by decide)).2.1⟩

/-- Claim C9: the handlers are deterministic with fixed concrete outputs —
after any number of prior invocations, `scopeDemo` responds with
Per instance: 362880, per function: 45 (9 factorial and the sum 1..9),
and `lazyGlobals` responds with
Lazy global: 362880, non-lazy global: 45. -/
theorem handlers_fixed_outputs (n : Nat) :
    (scopeDemo (scopeEnvAfter n)).2 =
      "Per instance: 362880, per function: 45" ∧
    (lazyGlobals (lazyEnvAfter n)).2 =
      "Lazy global: 362880, non-lazy global: 45" := by
  constructor
  · rw [scopeEnvAfter_fixed n]
    decide
  · cases n with
    | zero => decide
    | succ k =>
      rw [lazyEnvAfter_fixed k]
      decide

/-- Claim C10: `avoidInfiniteRetries` never signals failure — for every
current time and every event (parseable timestamp or not), every callback
invocation it makes carries no error argument. -/
theorem avoid_infinite_retries_never_fails (now : Int) (e : CloudEvent) :
    ((avoidInfiniteRetries now e).callbackArgs.all Option.isNone) = true := by
  cases h : ageExceeds (e.timestamp.map (fun t => now - t)) 10000 <;>
    simp [avoidInfiniteRetries, h]

end Tips
